import Mathlib

/-!
Verification of the PandaX generic resource selection pipeline and the
secret service (`apps/devops/services/k8s/secret/secret.go`), plus the
product/rulechain API callers.

The `dataselect` package (cell adapter, filter/sort/pagination/metric
engines, `GenericDataSelectWithFilter`) is referenced by `secret.go` but its
source is not part of this slice; those components are modelled from the
spec (sections 4.1-4.6), as marked in each doc comment.  Everything in
`secret.go` itself is embedded directly from the source.
-/

namespace PandaX

/-- Modelled from the spec: a `ComparableValue` is one of
{string, number, timestamp, boolean} (spec section 3, Cell). -/
inductive CValue : Type where
  | str (s : String)
  | num (n : Int)
  | time (t : Int)
  | bool (b : Bool)
deriving DecidableEq, Repr

/-- Modelled from the spec: sort direction (spec section 3, QueryDescriptor). -/
inductive Direction : Type where
  | ascending
  | descending
deriving DecidableEq, Repr

/-- Modelled from the spec: filter match modes (spec section 4.2).
`inRange` carries its inclusive numeric/timestamp bounds. -/
inductive MatchMode : Type where
  | equals (v : CValue)
  | contains (s : String)
  | inRange (low high : Int)
deriving DecidableEq, Repr

/-- Modelled from the spec: one filter criterion
(property, matchMode, value) (spec section 3). -/
structure FilterBy where
  property : String
  mode : MatchMode
deriving DecidableEq, Repr

/-- Modelled from the spec: pagination request, 1-based page number and
page size; values below 1 are clamped by the paginator (spec section 4.4). -/
structure PaginationQuery where
  pageNumber : Int
  pageSize : Int
deriving DecidableEq, Repr

/-- Modelled from the spec: the declarative query descriptor
(spec section 3): filters, optional sort, optional page, optional
count-by-property metric request. -/
structure DataSelectQuery where
  filters : List FilterBy
  sort : Option (String × Direction)
  page : Option PaginationQuery
  metricBy : Option String
deriving DecidableEq, Repr

/-- Modelled from the spec: does a present property value match one
criterion's mode?  `equals` is exact equality, `contains` is substring
match for strings, `inRange` is an inclusive numeric/timestamp bound;
a type-kind mismatch never matches (spec sections 4.2 and 7). -/
def matchValue (m : MatchMode) (v : CValue) : Bool :=
  match m with
  | .equals w => v = w
  | .contains s =>
    match v with
    | .str t => (t.splitOn s).length > 1 || s = ""
    | _ => false
  | .inRange low high =>
    match v with
    | .num n => low ≤ n && n ≤ high
    | .time t => low ≤ t && t ≤ high
    | _ => false

/-- Modelled from the spec: a cell is retained by a criterion only if its
named property is present and matches; an absent or unknown property
always fails to match, never errors (spec section 4.2). -/
def matchesCriterion {α : Type} (getP : α → String → Option CValue)
    (f : FilterBy) (c : α) : Bool :=
  match getP c f.property with
  | none => false
  | some v => matchValue f.mode v

/-- Modelled from the spec: the filter engine keeps exactly the cells
matching every criterion (criteria AND-combined, spec section 4.2). -/
def filterCells {α : Type} (getP : α → String → Option CValue)
    (filters : List FilterBy) (cells : List α) : List α :=
  cells.filter (fun c => filters.all (fun f => matchesCriterion getP f c))

theorem filterCells_length_le {α : Type} (getP : α → String → Option CValue)
    (filters : List FilterBy) (cells : List α) :
    (filterCells getP filters cells).length ≤ cells.length :=
  List.length_filter_le _ _

/-- Modelled from the spec: total comparison on comparable values, natural
ordering within each kind (spec section 4.3); kinds that are never compared
to each other in practice are ordered by an arbitrary fixed kind rank so
that the comparator stays total. -/
def valLe (v w : CValue) : Bool :=
  match v, w with
  | .str s, .str t => s ≤ t
  | .str _, _ => true
  | .num _, .str _ => false
  | .num n, .num m => n ≤ m
  | .num _, _ => true
  | .time _, .str _ => false
  | .time _, .num _ => false
  | .time t, .time u => t ≤ u
  | .time _, _ => true
  | .bool a, .bool b => !a || b
  | .bool _, _ => false

theorem valLe_refl (v : CValue) : valLe v v = true := by
  cases v <;> simp [valLe]

/-- Modelled from the spec: cell comparator for the sort engine
(spec section 4.3): compares the named property under the requested
direction; a cell with an absent value sorts after every cell with a
present value, for either direction. -/
def cellLe {α : Type} (getP : α → String → Option CValue)
    (prop : String) (dir : Direction) (a b : α) : Bool :=
  match getP a prop, getP b prop with
  | none, none => true
  | some _, none => true
  | none, some _ => false
  | some v, some w =>
    match dir with
    | .ascending => valLe v w
    | .descending => valLe w v

theorem cellLe_of_key_eq {α : Type} (getP : α → String → Option CValue)
    (prop : String) (dir : Direction) (a b : α)
    (h : getP a prop = getP b prop) : cellLe getP prop dir a b = true := by
  unfold cellLe
  rw [h]
  cases hb : getP b prop with
  | none => rfl
  | some w => cases dir <;> simp [valLe_refl]

/-- Insertion of one cell into an already-processed list: the cell is
placed before the first element it compares less-or-equal to.  This is the
stable-insertion step of the sort engine modelled from spec section 4.3. -/
def insertCell {α : Type} (le : α → α → Bool) (a : α) : List α → List α
  | [] => [a]
  | x :: xs => if le a x then a :: x :: xs else x :: insertCell le a xs

/-- Modelled from the spec: stable insertion sort over a comparator
(spec section 4.3: sorting is stable, ties keep input order). -/
def insertionSort {α : Type} (le : α → α → Bool) : List α → List α
  | [] => []
  | a :: l => insertCell le a (insertionSort le l)

/-- Modelled from the spec: the sort engine orders cells by a named
property and direction; no sort request means input order is kept
(spec section 4.3). -/
def sortCells {α : Type} (getP : α → String → Option CValue)
    (sort : Option (String × Direction)) (cells : List α) : List α :=
  match sort with
  | none => cells
  | some (prop, dir) => insertionSort (cellLe getP prop dir) cells

theorem filter_insertCell_pos {α : Type} (le : α → α → Bool) (p : α → Bool)
    (a : α) (l : List α)
    (hskip : ∀ x, le a x = false → p x = false) (ha : p a = true) :
    (insertCell le a l).filter p = a :: l.filter p := by
  induction l with
  | nil => simp [insertCell, ha]
  | cons x xs ih =>
    by_cases hx : le a x = true
    · simp [insertCell, hx, ha]
    · have hx' : le a x = false := by
        cases h : le a x
        · rfl
        · exact absurd h hx
      have hpx : p x = false := hskip x hx'
      simp [insertCell, hx', hpx, ih]

theorem filter_insertCell_neg {α : Type} (le : α → α → Bool) (p : α → Bool)
    (a : α) (l : List α) (ha : p a = false) :
    (insertCell le a l).filter p = l.filter p := by
  induction l with
  | nil => simp [insertCell, ha]
  | cons x xs ih =>
    by_cases hx : le a x = true
    · simp [insertCell, hx, ha]
    · have hx' : le a x = false := by
        cases h : le a x
        · rfl
        · exact absurd h hx
      rw [insertCell, if_neg hx]
      simp only [List.filter_cons, ih]

theorem filter_insertionSort {α : Type} (le : α → α → Bool) (p : α → Bool)
    (l : List α)
    (hkey : ∀ a x, p a = true → le a x = false → p x = false) :
    (insertionSort le l).filter p = l.filter p := by
  induction l with
  | nil => rfl
  | cons a l ih =>
    show (insertCell le a (insertionSort le l)).filter p = (a :: l).filter p
    by_cases ha : p a = true
    · rw [filter_insertCell_pos le p a _ (fun x hx => hkey a x ha hx) ha]
      simp [ha, ih]
    · have ha' : p a = false := by
        cases h : p a
        · rfl
        · exact absurd h ha
      rw [filter_insertCell_neg le p a _ ha']
      simp [ha', ih]

/-- Modelled from the spec: the paginator clamps page number and page size
below 1 up to 1, then takes the window
[(pageNumber-1)*pageSize, pageNumber*pageSize) intersected with the list;
no pagination request returns everything (spec section 4.4). -/
def paginate {α : Type} (page : Option PaginationQuery) (cells : List α) :
    List α :=
  match page with
  | none => cells
  | some p =>
    let pn : Int := if p.pageNumber < 1 then 1 else p.pageNumber
    let ps : Int := if p.pageSize < 1 then 1 else p.pageSize
    (cells.drop ((pn - 1) * ps).toNat).take ps.toNat

/-- Modelled from the spec: the metric engine groups the cells by the named
property's value and reports per-group counts; cells with an absent value
group under the distinguished `none` key (spec section 4.5). -/
def computeMetrics {α : Type} (getP : α → String → Option CValue)
    (prop : String) (cells : List α) : List (Option CValue × Nat) :=
  ((cells.map (fun c => getP c prop)).dedup).map
    (fun k => (k, (cells.filter (fun c => getP c prop = k)).length))

/-- Modelled from the spec: `dataselect.GenericDataSelectWithFilter` —
filters the cells, snapshots the filtered total, then sorts and paginates,
returning the final page of cells together with the filtered total
(spec sections 4.6 and 2; called from `ToSecretList`, secret.go line 109). -/
def GenericDataSelectWithFilter {α : Type} (getP : α → String → Option CValue)
    (cells : List α) (dsQuery : DataSelectQuery) : List α × Nat :=
  let filtered := filterCells getP dsQuery.filters cells
  let total := filtered.length
  (paginate dsQuery.page (sortCells getP dsQuery.sort filtered), total)

/-- Modelled from the spec: the result envelope assembled by the query
executor: count metadata, the selected cells, and the metric side channel
(spec sections 3 and 4.6). -/
structure ResultEnvelope (α : Type) where
  totalItemsBeforeFilter : Nat
  totalItemsAfterFilter : Nat
  items : List α
  metrics : List (Option CValue × Nat)
deriving DecidableEq, Repr

/-- Modelled from the spec: the query executor pipeline in its fixed order:
filter, snapshot the filtered total and compute metrics over the filtered
pre-pagination set, then sort, then paginate (spec section 4.6). -/
def executeQuery {α : Type} (getP : α → String → Option CValue)
    (cells : List α) (q : DataSelectQuery) : ResultEnvelope α :=
  let filtered := filterCells getP q.filters cells
  let metrics :=
    match q.metricBy with
    | none => []
    | some prop => computeMetrics getP prop filtered
  { totalItemsBeforeFilter := cells.length
    totalItemsAfterFilter := filtered.length
    items := paginate q.page (sortCells getP q.sort filtered)
    metrics := metrics }

/-- Embedded from source (`k8s.NewObjectMeta` result as used by
`toSecret`, secret.go lines 95-101): the object metadata the frontend
`Secret` carries. -/
structure ObjectMeta where
  name : String
  nspace : String
  creationTimestamp : Int
deriving DecidableEq, Repr

/-- Embedded from source (`k8s.NewTypeMeta(k8s.ResourceKindSecret)`,
secret.go line 98). -/
structure TypeMeta where
  kind : String
deriving DecidableEq, Repr

/-- Embedded from source: a cluster secret as consumed by `ToSecretList`
and built by `CreateSecret` (`v1.Secret`: object meta name/namespace plus
type and data). -/
structure V1Secret where
  name : String
  nspace : String
  creationTimestamp : Int
  type : String
  data : List (String × String)
deriving DecidableEq, Repr

/-- Embedded from source (secret.go lines 53-58): a single secret returned
to the frontend. -/
structure Secret where
  objectMeta : ObjectMeta
  typeMeta : TypeMeta
  type : String
deriving DecidableEq, Repr

/-- Embedded from source (secret.go lines 95-101). -/
def toSecret (secret : V1Secret) : Secret :=
  { objectMeta :=
      { name := secret.name
        nspace := secret.nspace
        creationTimestamp := secret.creationTimestamp }
    typeMeta := { kind := "secret" }
    type := secret.type }

/-- Embedded from source: `k8s.ListMeta` as it is used in secret.go lines
105 and 111 — a struct literal with the single field `TotalItems` (a Go
`int`, hence modelled as `Int`). -/
structure ListMeta where
  totalItems : Int
deriving DecidableEq, Repr

/-- Embedded from source (secret.go lines 60-66): response structure for a
queried secrets list. -/
structure SecretList where
  listMeta : ListMeta
  secrets : List Secret
deriving DecidableEq, Repr

/-- Modelled from the spec: the per-resource-kind cell for secrets (the
`dataselect` cell adapter implementation is not in this slice); a cell is
a normalized read-only view of one item (spec sections 3 and 4.1). -/
structure SecretCell where
  secret : V1Secret
deriving DecidableEq, Repr

/-- Modelled from the spec: `toCells` wraps each item in its cell, in
order, fabricating and losing nothing (spec section 4.1; called at
secret.go line 109). -/
def toCells (std : List V1Secret) : List SecretCell :=
  std.map (fun s => { secret := s })

/-- Modelled from the spec: `fromCells` is the exact inverse selection of
`toCells` (spec section 4.1; called at secret.go line 110). -/
def fromCells (cells : List SecretCell) : List V1Secret :=
  cells.map (fun c => c.secret)

/-- Modelled from the spec: the secret cell exposes its named comparable
properties; any other name is absent (spec sections 3 and 4.1). -/
def secretGetProperty (c : SecretCell) (name : String) : Option CValue :=
  if name = "name" then some (.str c.secret.name)
  else if name = "namespace" then some (.str c.secret.nspace)
  else if name = "creationTimestamp" then
    some (.time c.secret.creationTimestamp)
  else none

/-- Embedded from source (secret.go lines 103-118): builds the response
list; first stores `TotalItems = len(secrets)`, runs the data selection,
then overwrites the whole `ListMeta` with `TotalItems = filteredTotal` and
converts the selected cells back to frontend secrets. -/
def ToSecretList (secrets : List V1Secret) (dsQuery : DataSelectQuery) :
    SecretList :=
  let newSecretList : SecretList :=
    { listMeta := { totalItems := (secrets.length : Int) }, secrets := [] }
  let sel := GenericDataSelectWithFilter secretGetProperty (toCells secrets)
    dsQuery
  let secretCells := sel.1
  let filteredTotal := sel.2
  let selected := fromCells secretCells
  { newSecretList with
      listMeta := { totalItems := (filteredTotal : Int) }
      secrets := selected.map (fun secret => toSecret secret) }

/-- Embedded from source (secret.go lines 16-22): the data of a
`SecretSpec` as exposed by its accessor methods. -/
structure SecretSpec where
  name : String
  nspace : String
  type : String
  data : List (String × String)
deriving DecidableEq, Repr

/-- Embedded from source (secret.go lines 79-93): builds a `v1.Secret`
from the spec, issues the cluster create call (modelled by the `createErr`
outcome of that call), converts the locally built secret — not the
cluster's response — to the frontend `Secret`, and returns the pointer to
it together with the create call's error. -/
def CreateSecret (createErr : Option String) (spec : SecretSpec) :
    Option Secret × Option String :=
  let nspace := spec.nspace
  let secret : V1Secret :=
    { name := spec.name
      nspace := nspace
      creationTimestamp := 0
      type := spec.type
      data := spec.data }
  let err := createErr
  let result := toSecret secret
  (some result, err)

/-- Embedded from source: `k8s.SecretsData` as used by
`DeleteCollectionSecret` (secret.go lines 131-137: `.Name`,
`.Namespace`). -/
structure SecretsData where
  name : String
  nspace : String
deriving DecidableEq, Repr

/-- Embedded from source (secret.go lines 129-145), with the cluster's
per-secret delete call modelled by the `del` outcome function: walks the
list in order, attempts each deletion, and returns the first error at
once; the second component records which deletions were attempted. -/
def DeleteCollectionSecretRun (del : SecretsData → Option String) :
    List SecretsData → Option String × List SecretsData
  | [] => (none, [])
  | v :: rest =>
    match del v with
    | some e => (some e, [v])
    | none =>
      let r := DeleteCollectionSecretRun del rest
      (r.1, v :: r.2)

/-- Embedded from source (secret.go lines 129-145): the returned error of
the batch delete. -/
def DeleteCollectionSecret (del : SecretsData → Option String)
    (secretList : List SecretsData) : Option String :=
  (DeleteCollectionSecretRun del secretList).1

/-! Concrete fixtures used by counterexamples and witnesses. -/

def secA : V1Secret :=
  { name := "a", nspace := "d", creationTimestamp := 0, type := "Opaque",
    data := [] }

def secB : V1Secret :=
  { name := "b", nspace := "d", creationTimestamp := 1, type := "Opaque",
    data := [] }

def secC : V1Secret :=
  { name := "c", nspace := "d", creationTimestamp := 2, type := "Opaque",
    data := [] }

/-- A query filtering on `name = "a"`, no sort, no pagination. -/
def qNameA : DataSelectQuery :=
  { filters := [{ property := "name", mode := .equals (.str "a") }]
    sort := none
    page := none
    metricBy := none }

/-- C1: for every input secret collection and every query (hence every
filter criteria list), the filtered total that `ToSecretList` stores into
its result's ListMeta is at most the number of input secrets. -/
theorem toSecretList_filteredTotal_le_input (secrets : List V1Secret)
    (dsQuery : DataSelectQuery) :
    (ToSecretList secrets dsQuery).listMeta.totalItems ≤
      (secrets.length : Int) := by
  show ((filterCells secretGetProperty dsQuery.filters
      (toCells secrets)).length : Int) ≤ (secrets.length : Int)
  have h := filterCells_length_le secretGetProperty dsQuery.filters
    (toCells secrets)
  have hlen : (toCells secrets).length = secrets.length := by
    simp [toCells]
  exact_mod_cast hlen ▸ h

/-- C2 counterexample: the ListMeta actually stored by `ToSecretList`
holds a single count.  Two input collections with different before-filter
sizes (2 versus 1) but the same after-filter total produce identical
ListMeta values, so the result metadata cannot contain a separate
`totalItemsBeforeFilter` count. -/
theorem listMeta_lacks_before_filter_count :
    (ToSecretList [secA, secB] qNameA).listMeta =
      (ToSecretList [secA] qNameA).listMeta
    ∧ ([secA, secB] : List V1Secret).length ≠ ([secA] : List V1Secret).length
    ∧ (ToSecretList [secA, secB] qNameA).listMeta.totalItems = 1 := by
  refine ⟨by decide, by decide, by decide⟩

/-- C2 (amended): the result metadata holds the single count `totalItems`,
which `ToSecretList` sets to the after-filter total (the before-filter
assignment at secret.go line 105 is overwritten at line 111), and that
count is never negative. -/
theorem toSecretList_listMeta_after_filter_nonneg (secrets : List V1Secret)
    (q : DataSelectQuery) :
    (ToSecretList secrets q).listMeta =
      { totalItems := ((filterCells secretGetProperty q.filters
          (toCells secrets)).length : Int) }
    ∧ 0 ≤ (ToSecretList secrets q).listMeta.totalItems :=
  ⟨rfl, Int.natCast_nonneg _⟩

/-- C3: converting the secrets to cells and back with no selection applied
returns exactly the original sequence — no item fabricated or lost, order
preserved. -/
theorem fromCells_toCells_id (items : List V1Secret) :
    fromCells (toCells items) = items := by
  simp only [fromCells, toCells, List.map_map]
  exact List.map_id _

/-- C9: `CreateSecret` always returns a non-nil secret built from the
spec's name, namespace and type; the returned secret does not depend on
whether the cluster create call failed, and the call's error is returned
alongside, so both can be non-nil at once. -/
theorem createSecret_value_independent_of_error (spec : SecretSpec)
    (e1 e2 : Option String) :
    (CreateSecret e1 spec).1 =
      some (toSecret
        { name := spec.name, nspace := spec.nspace, creationTimestamp := 0,
          type := spec.type, data := spec.data })
    ∧ (CreateSecret e1 spec).1 = (CreateSecret e2 spec).1
    ∧ (CreateSecret e1 spec).2 = e1 :=
  ⟨rfl, rfl, rfl⟩

/-- C4: the sort engine is stable for every property and direction: for
any sort-key value `k`, the subsequence of output cells whose key equals
`k` is exactly the subsequence of input cells whose key equals `k`, in the
same order — so any two cells with equal sort-key values keep their
relative input order. -/
theorem sortCells_stable {α : Type} (getP : α → String → Option CValue)
    (prop : String) (dir : Direction) (l : List α) (k : Option CValue) :
    (sortCells getP (some (prop, dir)) l).filter
        (fun c => getP c prop = k)
      = l.filter (fun c => getP c prop = k) := by
  apply filter_insertionSort
  intro a x ha hx
  by_contra hpx
  have hxk : getP x prop = k := by
    cases h : decide (getP x prop = k)
    · exact absurd h hpx
    · exact of_decide_eq_true h
  have hak : getP a prop = k := of_decide_eq_true ha
  have : cellLe getP prop dir a x = true :=
    cellLe_of_key_eq getP prop dir a x (hak.trans hxk.symm)
  rw [this] at hx
  exact Bool.noConfusion hx

/-- A criterion on a property absent from every secret cell. -/
def fUnknown : FilterBy :=
  { property := "zzz", mode := .equals (.str "x") }

/-- C5: a criterion whose property is absent on a cell fails to match that
cell (and the filter engine is a total function, so no error is possible);
filtering on a property absent from every cell yields zero results. -/
theorem filterCells_unknown_property {α : Type}
    (getP : α → String → Option CValue) (f : FilterBy) (c : α)
    (cells : List α) :
    (getP c f.property = none → matchesCriterion getP f c = false)
    ∧ ((∀ x ∈ cells, getP x f.property = none) →
        filterCells getP [f] cells = []) := by
  constructor
  · intro h
    simp [matchesCriterion, h]
  · intro h
    unfold filterCells
    rw [List.filter_eq_nil_iff]
    intro x hx
    simp [matchesCriterion, h x hx]

/-- C5 witness: filtering the concrete cell of `secA` on the unknown
property "zzz" matches nothing and yields the empty result. -/
theorem filterCells_unknown_property_witness :
    (matchesCriterion secretGetProperty fUnknown { secret := secA } = false)
    ∧ filterCells secretGetProperty [fUnknown]
        [{ secret := secA }, { secret := secB }] = [] :=
  ⟨(filterCells_unknown_property secretGetProperty fUnknown
      { secret := secA } ([] : List SecretCell)).1 (by decide),
   (filterCells_unknown_property secretGetProperty fUnknown
      { secret := secA }
      [{ secret := secA }, { secret := secB }]).2 (by decide)⟩

/-- C6: a pagination window starting at or beyond the end of the cell
sequence yields the empty sequence (never an error: the paginator is a
total function), and the filtered total reported by the selection is the
same as with no pagination at all. -/
theorem paginate_out_of_range {α : Type} (cells : List α)
    (p : PaginationQuery) (getP : α → String → Option CValue)
    (q : DataSelectQuery)
    (h : cells.length ≤
        (((if p.pageNumber < 1 then 1 else p.pageNumber) - 1) *
          (if p.pageSize < 1 then 1 else p.pageSize)).toNat) :
    paginate (some p) cells = []
    ∧ (GenericDataSelectWithFilter getP cells
        { q with page := some p }).2
      = (GenericDataSelectWithFilter getP cells { q with page := none }).2 := by
  constructor
  · show ((cells.drop (((if p.pageNumber < 1 then 1 else p.pageNumber) - 1) *
        (if p.pageSize < 1 then 1 else p.pageSize)).toNat).take
          (if p.pageSize < 1 then 1 else p.pageSize).toNat) = []
    rw [List.drop_eq_nil_of_le h, List.take_nil]
  · rfl

/-- C6 witness: page 5 with page size 10 against the 3 filtered secret
cells yields the empty page while the selection still reports the same
filtered total as without pagination. -/
theorem paginate_out_of_range_witness :
    paginate (some { pageNumber := 5, pageSize := 10 })
        (toCells [secA, secB, secC]) = []
    ∧ (GenericDataSelectWithFilter secretGetProperty
        (toCells [secA, secB, secC])
        { filters := [], sort := none,
          page := some { pageNumber := 5, pageSize := 10 },
          metricBy := none }).2
      = (GenericDataSelectWithFilter secretGetProperty
          (toCells [secA, secB, secC])
          { filters := [], sort := none, page := none,
            metricBy := none }).2 :=
  paginate_out_of_range (toCells [secA, secB, secC])
    { pageNumber := 5, pageSize := 10 } secretGetProperty
    { filters := [], sort := none, page := none, metricBy := none }
    (by decide)

theorem clamp_eq_max (x : Int) : (if x < 1 then 1 else x) = max x 1 := by
  rcases lt_or_ge x 1 with h | h
  · rw [if_pos h, max_eq_right (le_of_lt h)]
  · rw [if_neg (not_lt.mpr h), max_eq_left h]

/-- C7: a pagination request with pageNumber < 1 or pageSize < 1 is
processed exactly as if each invalid value were clamped to 1; the
paginator is a total function, so the request is never rejected. -/
theorem paginate_clamps_invalid {α : Type} (cells : List α)
    (p : PaginationQuery) (h : p.pageNumber < 1 ∨ p.pageSize < 1) :
    paginate (some p) cells =
      paginate (some { pageNumber := max p.pageNumber 1,
                       pageSize := max p.pageSize 1 }) cells := by
  unfold paginate
  simp only [clamp_eq_max, max_assoc, max_self]

/-- C7 witness: the concrete request page 0 with page size -5 over the
cell of `secA` is handled as page 1 with size 1. -/
theorem paginate_clamps_invalid_witness :
    ((0 : Int) < 1 ∨ (-5 : Int) < 1)
    ∧ paginate (some { pageNumber := 0, pageSize := -5 }) (toCells [secA])
      = paginate (some { pageNumber := max 0 1, pageSize := max (-5) 1 })
          (toCells [secA]) :=
  ⟨Or.inl (by decide),
   paginate_clamps_invalid (toCells [secA])
     { pageNumber := 0, pageSize := -5 } (Or.inl (by decide))⟩

/-- C8: for a fixed input collection, filter set, sort and metric request,
the metric engine's computed group counts are identical for all values of
the pagination parameters — metrics are computed over the filtered,
pre-pagination set. -/
theorem metrics_pagination_invariant {α : Type}
    (getP : α → String → Option CValue) (cells : List α)
    (filters : List FilterBy) (sort : Option (String × Direction))
    (mb : Option String) (p1 p2 : Option PaginationQuery) :
    (executeQuery getP cells
        { filters := filters, sort := sort, page := p1,
          metricBy := mb }).metrics
      = (executeQuery getP cells
          { filters := filters, sort := sort, page := p2,
            metricBy := mb }).metrics := rfl

/-- C10: `DeleteCollectionSecret` attempts deletions in list order and
stops at the first failure: the returned error is the first deletion
error in list order, the attempted deletions are exactly the successful
ones before it plus the failing one, and the result is nil if and only if
every deletion succeeds. -/
theorem deleteCollectionSecret_first_error (del : SecretsData → Option String)
    (l : List SecretsData) :
    DeleteCollectionSecret del l
      = (l.find? (fun v => (del v).isSome)).bind del
    ∧ (DeleteCollectionSecretRun del l).2
      = l.takeWhile (fun v => (del v).isNone)
        ++ (l.find? (fun v => (del v).isSome)).toList
    ∧ (DeleteCollectionSecret del l = none ↔ ∀ v ∈ l, del v = none) := by
  induction l with
  | nil =>
    refine ⟨rfl, rfl, ?_⟩
    simp [DeleteCollectionSecret, DeleteCollectionSecretRun]
  | cons v rest ih =>
    obtain ⟨ih1, ih2, ih3⟩ := ih
    cases hd : del v with
    | some e =>
      refine ⟨?_, ?_, ?_⟩
      · simp [DeleteCollectionSecret, DeleteCollectionSecretRun, hd,
          List.find?_cons]
      · simp [DeleteCollectionSecretRun, hd, List.find?_cons,
          List.takeWhile_cons]
      · constructor
        · intro hnone
          simp [DeleteCollectionSecret, DeleteCollectionSecretRun, hd]
            at hnone
        · intro hall
          have := hall v (List.mem_cons_self v rest)
          rw [hd] at this
          exact absurd this (Option.some_ne_none e)
    | none =>
      have hstep : DeleteCollectionSecret del (v :: rest)
          = DeleteCollectionSecret del rest := by
        simp [DeleteCollectionSecret, DeleteCollectionSecretRun, hd]
      refine ⟨?_, ?_, ?_⟩
      · rw [hstep, ih1]
        simp [List.find?_cons, hd]
      · simp only [DeleteCollectionSecretRun, hd]
        rw [show (DeleteCollectionSecretRun del rest).2
            = rest.takeWhile (fun v => (del v).isNone)
              ++ (rest.find? (fun v => (del v).isSome)).toList from ih2]
        simp [List.takeWhile_cons, List.find?_cons, hd]
      · rw [hstep, ih3]
        constructor
        · intro hall x hx
          rcases List.mem_cons.mp hx with hxv | hxr
          · rw [hxv]; exact hd
          · exact hall x hxr
        · intro hall x hx
          exact hall x (List.mem_cons_of_mem v hx)

end PandaX
